import Mathlib

/-!
Verification of the data-handling steps of the colon survival-analysis
notebooks (`src/survival.py`, `src/notebooks/analiza_calosc.py`,
`src/notebooks/analiza_calosc_strat.py`).

The notebooks delegate all statistical fitting to the lifelines library;
the repository code itself selects columns, filters rows, dummy-encodes a
categorical column, builds result tables, and configures plots.  We embed
those data transformations shallowly: a dataframe is a list of records,
pandas boolean-mask filtering is `List.filter`, numeric columns are `ℚ`
(or `ℝ` where a logarithm is taken), and the concrete call sites of the
notebooks (log-rank test arguments, Kaplan-Meier fit labels, dataframe
operations in program order) are transcribed as explicit Lean data.
-/

namespace ColonSurvival

/-- A raw record of `colon.csv`, with the sixteen columns described in the
notebook headers (`id`, `study`, `rx`, `sex`, `age`, `obstruct`, `perfor`,
`adhere`, `nodes`, `time`, `status`, `differ`, `extent`, `surg`, `node4`,
`etype`). -/
structure RawRow where
  id : ℤ
  study : ℤ
  rx : ℤ
  sex : ℤ
  age : ℚ
  obstruct : ℤ
  perfor : ℤ
  adhere : ℤ
  nodes : ℚ
  time : ℚ
  status : ℤ
  differ : ℤ
  extent : ℤ
  surg : ℤ
  node4 : ℤ
  etype : ℤ
deriving DecidableEq

/-- A record after the column selection
`colon[['time', 'status', 'rx', 'sex', 'age', 'obstruct', 'adhere', 'differ']]`
(analiza_calosc.py line 91, analiza_calosc_strat.py line 91,
survival.py line 75). -/
structure Row where
  time : ℚ
  status : ℤ
  rx : ℤ
  sex : ℤ
  age : ℚ
  obstruct : ℤ
  adhere : ℤ
  differ : ℤ
deriving DecidableEq

/-- The eight-column selection applied to a raw record. -/
def selectCols (r : RawRow) : Row :=
  { time := r.time, status := r.status, rx := r.rx, sex := r.sex,
    age := r.age, obstruct := r.obstruct, adhere := r.adhere,
    differ := r.differ }

/-- The treatment filter `colon = colon[colon['rx'] != 2]`
(analiza_calosc.py line 95, analiza_calosc_strat.py line 95): pandas
boolean-mask selection keeps, in order, exactly the rows whose mask entry
is true. -/
def filterRx (df : List Row) : List Row :=
  df.filter (fun r => r.rx != 2)

/-- C4: the filter `colon[colon['rx'] != 2]` returns, for every input
dataframe, a sublist of the input (so the retained rows keep their
original relative order and all their column values), a row is retained
iff it was present with `rx ≠ 2`, and consequently no retained row has
`rx = 2`. -/
theorem C4_filterRx_spec (df : List Row) :
    List.Sublist (filterRx df) df ∧
    (∀ r : Row, r ∈ filterRx df ↔ r ∈ df ∧ r.rx ≠ 2) ∧
    (∀ r : Row, r ∈ filterRx df → r.rx ≠ 2) := by
  refine ⟨List.filter_sublist df, fun r => ?_, fun r hr => ?_⟩
  · simp [filterRx, List.mem_filter, bne_iff_ne]
  · have := (List.mem_filter.mp hr).2
    simpa [bne_iff_ne] using this

/-- A record after
`colon = pd.get_dummies(colon, columns=['differ'], drop_first=True)`
(analiza_calosc.py line 463, analiza_calosc_strat.py line 440): with the
observed categories 1 < 2 < 3, pandas drops the first indicator
`differ_1` and keeps `differ_2` and `differ_3`; all other columns are
carried over. -/
structure EncRow where
  time : ℚ
  status : ℤ
  rx : ℤ
  sex : ℤ
  age : ℚ
  obstruct : ℤ
  adhere : ℤ
  differ_2 : Bool
  differ_3 : Bool
deriving DecidableEq

/-- The dummy-encoding of one row: `differ` is replaced by the indicators
`differ_2 = (differ == 2)` and `differ_3 = (differ == 3)`. -/
def getDummiesDiffer (r : Row) : EncRow :=
  { time := r.time, status := r.status, rx := r.rx, sex := r.sex,
    age := r.age, obstruct := r.obstruct, adhere := r.adhere,
    differ_2 := r.differ == 2, differ_3 := r.differ == 3 }

/-- `pd.get_dummies` applied row-wise to the dataframe. -/
def getDummiesDf (df : List Row) : List EncRow :=
  df.map getDummiesDiffer

/-- Inverse of the indicator map on the category set {1, 2, 3}. -/
def decodeDiffer (e : EncRow) : ℤ :=
  if e.differ_2 then 2 else if e.differ_3 then 3 else 1

/-- Reconstruction of the original row from a dummy-encoded row. -/
def decodeRow (e : EncRow) : Row :=
  { time := e.time, status := e.status, rx := e.rx, sex := e.sex,
    age := e.age, obstruct := e.obstruct, adhere := e.adhere,
    differ := decodeDiffer e }

/-- C5: on rows whose `differ` value lies in {1, 2, 3}, the dummy-encoding
sends 1 to (false, false), 2 to (true, false) and 3 to (false, true),
leaves every other column unchanged, is injective, and the original row
(in particular the `differ` value) is recoverable from the encoded row. -/
theorem C5_get_dummies_roundtrip (r r' : Row)
    (h : r.differ = 1 ∨ r.differ = 2 ∨ r.differ = 3)
    (h' : r'.differ = 1 ∨ r'.differ = 2 ∨ r'.differ = 3) :
    decodeRow (getDummiesDiffer r) = r ∧
    (r.differ = 1 →
      (getDummiesDiffer r).differ_2 = false ∧
      (getDummiesDiffer r).differ_3 = false) ∧
    (r.differ = 2 →
      (getDummiesDiffer r).differ_2 = true ∧
      (getDummiesDiffer r).differ_3 = false) ∧
    (r.differ = 3 →
      (getDummiesDiffer r).differ_2 = false ∧
      (getDummiesDiffer r).differ_3 = true) ∧
    (getDummiesDiffer r).time = r.time ∧
    (getDummiesDiffer r).status = r.status ∧
    (getDummiesDiffer r).rx = r.rx ∧
    (getDummiesDiffer r).sex = r.sex ∧
    (getDummiesDiffer r).age = r.age ∧
    (getDummiesDiffer r).obstruct = r.obstruct ∧
    (getDummiesDiffer r).adhere = r.adhere ∧
    (getDummiesDiffer r = getDummiesDiffer r' → r = r') := by
  have hdec : ∀ s : Row, s.differ = 1 ∨ s.differ = 2 ∨ s.differ = 3 →
      decodeRow (getDummiesDiffer s) = s := by
    intro s hs
    obtain ⟨t, st, rx, sx, ag, ob, ad, di⟩ := s
    rcases hs with hs | hs | hs <;> (simp only at hs; subst hs) <;>
      simp [decodeRow, getDummiesDiffer, decodeDiffer]
  refine ⟨hdec r h, ?_, ?_, ?_, rfl, rfl, rfl, rfl, rfl, rfl, rfl, ?_⟩
  · intro h1; simp [getDummiesDiffer, h1]
  · intro h2; simp [getDummiesDiffer, h2]
  · intro h3; simp [getDummiesDiffer, h3]
  · intro heq
    have := congrArg decodeRow heq
    rwa [hdec r h, hdec r' h'] at this

/-- Concrete instantiation of the round-trip theorem, at a pair of rows
with `differ = 2` and `differ = 3`. -/
theorem C5_get_dummies_roundtrip_witness :
    ((2 : ℤ) = 1 ∨ (2 : ℤ) = 2 ∨ (2 : ℤ) = 3) ∧
    decodeRow (getDummiesDiffer
        ⟨968, 1, 1, 0, 60, 0, 0, 2⟩) = ⟨968, 1, 1, 0, 60, 0, 0, 2⟩ :=
  ⟨by decide,
    (C5_get_dummies_roundtrip ⟨968, 1, 1, 0, 60, 0, 0, 2⟩
      ⟨968, 1, 1, 0, 60, 0, 0, 3⟩ (by decide) (by decide)).1⟩

/-- Appending a derived column to a dataframe, as in
`colon_tv['differ_3*time'] = colon_tv['differ_3']*colon_tv['time']`
(analiza_calosc.py line 733): each row is paired with the new column's
value and all existing columns are kept. -/
def addColumn (f : Row → ℚ) (df : List Row) : List (Row × ℚ) :=
  df.map (fun r => (r, f r))

/-- C9: if every `rx` value of the input lies in {1, 2, 3}, then after the
filter `colon[colon['rx'] != 2]` the masks `rx == 1` and `rx == 3`
partition the filtered dataframe (every row satisfies exactly one of
them), and this partition is preserved by adding a derived column. -/
theorem C9_rx_partition (df : List Row) (f : Row → ℚ)
    (h : ∀ r ∈ df, r.rx = 1 ∨ r.rx = 2 ∨ r.rx = 3) :
    (∀ r ∈ filterRx df, (r.rx = 1 ∨ r.rx = 3) ∧ ¬(r.rx = 1 ∧ r.rx = 3)) ∧
    (∀ p ∈ addColumn f (filterRx df),
      (p.1.rx = 1 ∨ p.1.rx = 3) ∧ ¬(p.1.rx = 1 ∧ p.1.rx = 3)) := by
  have hbase : ∀ r ∈ filterRx df,
      (r.rx = 1 ∨ r.rx = 3) ∧ ¬(r.rx = 1 ∧ r.rx = 3) := by
    intro r hr
    have hmem := List.mem_filter.mp hr
    have hne : r.rx ≠ 2 := by simpa [bne_iff_ne] using hmem.2
    have hcases := h r hmem.1
    constructor
    · rcases hcases with h1 | h2 | h3
      · exact Or.inl h1
      · exact absurd h2 hne
      · exact Or.inr h3
    · rintro ⟨h1, h3⟩
      rw [h1] at h3
      exact absurd h3 (by decide)
  refine ⟨hbase, fun p hp => ?_⟩
  rcases List.mem_map.mp hp with ⟨r, hr, rfl⟩
  exact hbase r hr

/-- Concrete instantiation of the partition theorem, on a two-row
dataframe with `rx` values 1 and 2, evaluated at the surviving row. -/
theorem C9_rx_partition_witness :
    ((⟨968, 1, 1, 0, 60, 0, 0, 2⟩ : Row).rx = 1 ∨
      (⟨968, 1, 1, 0, 60, 0, 0, 2⟩ : Row).rx = 3) ∧
    ¬((⟨968, 1, 1, 0, 60, 0, 0, 2⟩ : Row).rx = 1 ∧
      (⟨968, 1, 1, 0, 60, 0, 0, 2⟩ : Row).rx = 3) :=
  (C9_rx_partition
    [⟨968, 1, 1, 0, 60, 0, 0, 2⟩, ⟨3329, 1, 2, 1, 55, 0, 0, 2⟩]
    (fun r => r.time) (by decide)).1
    ⟨968, 1, 1, 0, 60, 0, 0, 2⟩ (by decide)

/-- Semantics of Python's `min(d, key=d.get)` on an association list in
insertion order: the first key whose value is minimal (later entries
replace the current best only on a strictly smaller value). -/
def pyMinKey : List (String × ℚ) → Option (String × ℚ)
  | [] => none
  | kv :: rest =>
      some (rest.foldl (fun best c => if c.2 < best.2 then c else best) kv)

/-- Semantics of Python's `max(d, key=d.get)` on an association list in
insertion order: the first key whose value is maximal. -/
def pyMaxKey : List (String × ℚ) → Option (String × ℚ)
  | [] => none
  | kv :: rest =>
      some (rest.foldl (fun best c => if best.2 < c.2 then c else best) kv)

/-- The `aic_values` (or `c_values`) dictionary of analiza_calosc.py
lines 509-520, keyed in the insertion order of the `models` dictionary:
Weibull, LogNormal, LogLogistic. -/
def aftValues (w l g : ℚ) : List (String × ℚ) :=
  [("Weibull", w), ("LogNormal", l), ("LogLogistic", g)]

/-- `best_model_name = min(aic_values, key=aic_values.get)`
(analiza_calosc.py line 528). -/
def bestByAIC (w l g : ℚ) : Option (String × ℚ) :=
  pyMinKey (aftValues w l g)

/-- `best_model_name = max(c_values, key=c_values.get)`
(analiza_calosc.py line 531). -/
def bestByConcordance (w l g : ℚ) : Option (String × ℚ) :=
  pyMaxKey (aftValues w l g)

/-- The value carried by one comparison step of `min(d, key=d.get)` is
the smaller of the two values. -/
lemma minStep_snd (best c : String × ℚ) :
    (if c.2 < best.2 then c else best).2 = min best.2 c.2 := by
  by_cases hlt : c.2 < best.2
  · rw [if_pos hlt, min_eq_right (le_of_lt hlt)]
  · rw [if_neg hlt, min_eq_left (not_lt.mp hlt)]

/-- The value carried by one comparison step of `max(d, key=d.get)` is
the larger of the two values. -/
lemma maxStep_snd (best c : String × ℚ) :
    (if best.2 < c.2 then c else best).2 = max best.2 c.2 := by
  by_cases hlt : best.2 < c.2
  · rw [if_pos hlt, max_eq_right (le_of_lt hlt)]
  · rw [if_neg hlt, max_eq_left (not_lt.mp hlt)]

/-- C2: for every assignment of (finite) AIC values to the three AFT
models, the model reported as best by AIC carries the minimum of the
three AIC values, and for every assignment of concordance values the
model reported as best by concordance carries the maximum of the three
concordance values. -/
theorem C2_best_aft_model (wa la ga wc lc gc : ℚ) :
    (bestByAIC wa la ga).map Prod.snd = some (min wa (min la ga)) ∧
    (bestByConcordance wc lc gc).map Prod.snd
      = some (max wc (max lc gc)) := by
  constructor
  · simp only [bestByAIC, pyMinKey, aftValues, Option.map_some']
    rw [List.foldl_cons, List.foldl_cons, List.foldl_nil,
      minStep_snd, minStep_snd, min_assoc]
  · simp only [bestByConcordance, pyMaxKey, aftValues, Option.map_some']
    rw [List.foldl_cons, List.foldl_cons, List.foldl_nil,
      maxStep_snd, maxStep_snd, max_assoc]

/-- The `multivariate_logrank_test` call sites of the non-parametric
section of analiza_calosc.py, keyed by the variable each section
examines; the value is the triple of column arguments passed
(lines 269, 316, 361, 404, 441). -/
def calosc_logrank_calls : List (String × (String × String × String)) :=
  [("rx", ("time", "rx", "status")),
   ("sex", ("time", "sex", "status")),
   ("obstruct", ("time", "obstruct", "status")),
   ("adhere", ("time", "adhere", "status")),
   ("differ", ("time", "adhere", "status"))]

/-- The `multivariate_logrank_test` call sites of the non-parametric
section of analiza_calosc_strat.py, keyed by the variable each section
examines (lines 262, 305, 348, 388, 421). -/
def strat_logrank_calls : List (String × (String × String × String)) :=
  [("rx", ("time", "rx", "status")),
   ("sex", ("time", "sex", "status")),
   ("obstruct", ("time", "obstruct", "status")),
   ("adhere", ("time", "adhere", "status")),
   ("differ", ("time", "adhere", "status"))]

/-- C1 (failing input): in both notebooks the log-rank call of the
`differ` section passes `colon['adhere']`, not `colon['differ']`, as the
grouping labels, while the sections for rx, sex, obstruct and adhere do
pass their own variable; so the claim's per-section pattern holds for
four of the five variables and is broken exactly at `differ`. -/
theorem C1_differ_logrank_bug :
    calosc_logrank_calls.lookup "differ" = some ("time", "adhere", "status") ∧
    strat_logrank_calls.lookup "differ" = some ("time", "adhere", "status") ∧
    ("adhere" : String) ≠ "differ" ∧
    calosc_logrank_calls.lookup "rx" = some ("time", "rx", "status") ∧
    calosc_logrank_calls.lookup "sex" = some ("time", "sex", "status") ∧
    calosc_logrank_calls.lookup "obstruct"
      = some ("time", "obstruct", "status") ∧
    calosc_logrank_calls.lookup "adhere"
      = some ("time", "adhere", "status") ∧
    strat_logrank_calls.lookup "rx" = some ("time", "rx", "status") ∧
    strat_logrank_calls.lookup "sex" = some ("time", "sex", "status") ∧
    strat_logrank_calls.lookup "obstruct"
      = some ("time", "obstruct", "status") ∧
    strat_logrank_calls.lookup "adhere"
      = some ("time", "adhere", "status") := by
  refine ⟨rfl, rfl, by decide, rfl, rfl, rfl, rfl, rfl, rfl, rfl, rfl⟩

/-- The age categorisation of survival.py lines 199-202,
`pd.cut(colon_df['age'], bins=[0, 45, 65, inf], labels=['young', 'mid',
'old'])`, with pandas' default right-closed bins: the intervals are
(0, 45], (45, 65] and (65, ∞); a missing age (`none`) or an age outside
every bin is left uncategorised. -/
def age_category : Option ℚ → Option String
  | none => none
  | some a =>
      if 0 < a ∧ a ≤ 45 then some "young"
      else if 45 < a ∧ a ≤ 65 then some "mid"
      else if 65 < a then some "old"
      else none

/-- The curve labels attached to the three age subgroups in the
Kaplan-Meier plot of survival.py lines 214-221. -/
def age_plot_label (category : String) : String :=
  if category = "young" then "<45"
  else if category = "mid" then "45-65"
  else "65<"

/-- C8: the bins are right-closed, so age exactly 45 is categorised
`young` and age exactly 65 is categorised `mid`; any non-positive or
missing age receives no category (so the three masks do not cover such
rows); and the plot label of the `young` group, `<45`, does not match
the boundary assignment since 45 is in the group while `45 < 45` fails. -/
theorem C8_age_cut_boundaries :
    age_category (some 45) = some "young" ∧
    age_category (some 65) = some "mid" ∧
    (∀ a : ℚ, a ≤ 0 → age_category (some a) = none) ∧
    age_category none = none ∧
    (age_category (some 0) ≠ some "young" ∧
     age_category (some 0) ≠ some "mid" ∧
     age_category (some 0) ≠ some "old") ∧
    age_plot_label "young" = "<45" ∧ ¬ ((45 : ℚ) < 45) := by
  refine ⟨by norm_num [age_category], by norm_num [age_category],
    fun a ha => ?_, rfl, by decide, rfl, lt_irrefl 45⟩
  have h1 : ¬ (0 < a ∧ a ≤ 45) := fun h => absurd (lt_of_lt_of_le h.1 ha) (by norm_num)
  have h2 : ¬ (45 < a ∧ a ≤ 65) := fun h => by linarith [h.1]
  have h3 : ¬ (65 < a) := fun h => by linarith
  simp [age_category, h1, h2, h3]

/-- Concrete instantiation: a patient with age 0 receives no age
category. -/
theorem C8_age_cut_boundaries_witness :
    age_category (some 0) = none :=
  C8_age_cut_boundaries.2.2.1 0 le_rfl

/-- The cumulative-hazard column of the Kaplan-Meier survival table,
exactly as built by analiza_calosc.py lines 190-191 (and
analiza_calosc_strat.py lines 190-191): the repository computes
`-(np.log(kmf.survival_function_.values))` element-wise from the
library's survival-function column and then overwrites the first entry
with 0 (`korekta wizualna`). -/
noncomputable def kmCumHazardColumn (s : List ℝ) : List ℝ :=
  (s.map (fun x => -Real.log x)).set 0 0

/-- Modelled from the spec: the claim that the cumulative-hazard column
is itself a library-produced estimate, i.e. a series placed into the
table verbatim (as every other column of the table is: the survival
function, the confidence intervals and the event-table columns are all
assigned unchanged from library attributes). -/
def kmCumHazardColumn_claimed (libSeries : List ℝ) : List ℝ :=
  libSeries

/-- C3 (counterexample): on the survival series `[1, exp(-2)]` the table
column is `[0, 2]`, a value computed by repository arithmetic; it is not
the verbatim library series the claim describes, so the column is
derived in repository code rather than library-produced. -/
theorem C3_cumhazard_counterexample :
    kmCumHazardColumn [1, Real.exp (-2)] = [0, 2] ∧
    kmCumHazardColumn [1, Real.exp (-2)]
      ≠ kmCumHazardColumn_claimed [1, Real.exp (-2)] := by
  have hcol : kmCumHazardColumn [1, Real.exp (-2)] = [0, 2] := by
    simp [kmCumHazardColumn, Real.log_exp]
  refine ⟨hcol, ?_⟩
  rw [hcol]
  intro h
  have h0 : (0 : ℝ) = 1 := congrArg (fun l => l.headI) h
  norm_num at h0

/-- C3 (amended): the cumulative-hazard column is derived in repository
code from the library's Kaplan-Meier survival function: whenever the
survival series starts at 1 (as a Kaplan-Meier survival function does at
time 0), the overwrite of the first entry is a no-op and the whole
column is exactly `-log` of the survival series; on positive survival
values the survival function is recovered as `exp` of the negated
column entry. -/
theorem C3_cumhazard_amended (s : List ℝ) (h : s.head? = some 1) :
    kmCumHazardColumn s = s.map (fun x => -Real.log x) ∧
    (∀ i : ℕ, ∀ x : ℝ, s.get? i = some x → 0 < x →
      ((kmCumHazardColumn s).get? i).map (fun y => Real.exp (-y))
        = some x) := by
  obtain ⟨x0, t, rfl⟩ : ∃ x0 t, s = x0 :: t := by
    cases s with
    | nil => simp at h
    | cons a t => exact ⟨a, t, rfl⟩
  have hx0 : x0 = 1 := by simpa using h
  subst hx0
  have hcol : kmCumHazardColumn (1 :: t)
      = (1 :: t).map (fun x => -Real.log x) := by
    simp [kmCumHazardColumn, Real.log_one]
  refine ⟨hcol, fun i x hget hpos => ?_⟩
  rw [hcol]
  rw [List.get?_map, hget]
  simp [Real.exp_log hpos]

/-- Concrete instantiation of the amended statement at the survival
series `[1, exp(-2)]`, recovering the survival value at index 1. -/
theorem C3_cumhazard_amended_witness :
    ([(1 : ℝ), Real.exp (-2)].head? = some 1) ∧
    ((kmCumHazardColumn [1, Real.exp (-2)]).get? 1).map
        (fun y => Real.exp (-y)) = some (Real.exp (-2)) :=
  ⟨rfl, (C3_cumhazard_amended [1, Real.exp (-2)] rfl).2 1 (Real.exp (-2))
    rfl (Real.exp_pos _)⟩

/-- A subject row passed to `to_episodic_format` in analiza_calosc.py
line 738: an identifier, a duration (`time`), an event flag (`status`)
and the remaining covariate columns (`rx`, `sex`, `obstruct`,
`differ_3`). -/
structure Subject where
  id : ℕ
  time : ℚ
  status : ℤ
  covs : List ℚ
deriving DecidableEq

/-- One episode of the long-format dataframe produced by
`to_episodic_format`: a `(start, stop]` interval carrying the subject's
id, event flag and covariates. -/
structure Episode where
  id : ℕ
  start : ℚ
  stop : ℚ
  status : ℤ
  covs : List ℚ
deriving DecidableEq

/-- The `k`-th episode (of `n`) generated for a subject: interval
`(k·gap, min((k+1)·gap, time)]`, covariates copied, event flag equal to
the subject's status on the last episode and 0 before. -/
def episodeOf (gap : ℚ) (s : Subject) (n k : ℕ) : Episode :=
  { id := s.id, start := (k : ℚ) * gap,
    stop := min (((k : ℚ) + 1) * gap) s.time,
    status := if k + 1 = n then s.status else 0,
    covs := s.covs }

/-- Modelled from the spec: `lifelines.utils.to_episodic_format`
(library code, not under src/), as called with `duration_col='time'`,
`event_col='status'`, `time_gaps=100.` in analiza_calosc.py lines
736-738 and analiza_calosc_strat.py lines 597-599.  A subject with
duration `time` is expanded into `⌈time / gap⌉` consecutive episodes of
length `gap`, the last one truncated at `time`; every episode repeats
the subject's id and covariates, and the event flag is the subject's
status on the last episode and 0 on the earlier ones. -/
def to_episodic_format (gap : ℚ) (s : Subject) : List Episode :=
  (List.range (⌈s.time / gap⌉).toNat).map
    (episodeOf gap s (⌈s.time / gap⌉).toNat)

/-- Length of the episodic expansion. -/
lemma to_episodic_length (gap : ℚ) (s : Subject) :
    (to_episodic_format gap s).length = (⌈s.time / gap⌉).toNat := by
  simp [to_episodic_format]

/-- Indexing the episodic expansion. -/
lemma to_episodic_get (gap : ℚ) (s : Subject) (k : ℕ)
    (hk : k < (⌈s.time / gap⌉).toNat) :
    (to_episodic_format gap s).get? k
      = some (episodeOf gap s (⌈s.time / gap⌉).toNat k) := by
  show ((List.range (⌈s.time / gap⌉).toNat).map
      (episodeOf gap s (⌈s.time / gap⌉).toNat)).get? k
    = some (episodeOf gap s (⌈s.time / gap⌉).toNat k)
  rw [List.get?_map, List.get?_range hk]
  rfl

/-- C6: for every subject with positive duration, the episodic
conversion with `time_gaps = 100` produces a non-empty sequence of
episodes that exactly tiles `(0, time]`: every episode carries the
subject's id and covariates, is non-degenerate and no longer than 100,
the first episode starts at 0, consecutive episodes abut, the last
episode stops at `time`, and the event flag equals the subject's status
on the last episode and 0 on all earlier ones. -/
theorem C6_to_episodic_spec (s : Subject) (h : 0 < s.time) :
    1 ≤ (to_episodic_format 100 s).length ∧
    (∀ e ∈ to_episodic_format 100 s,
      e.id = s.id ∧ e.covs = s.covs ∧ e.start < e.stop ∧
      e.stop - e.start ≤ 100) ∧
    ((to_episodic_format 100 s).get? 0).map Episode.start = some 0 ∧
    ((to_episodic_format 100 s).get?
        ((to_episodic_format 100 s).length - 1)).map Episode.stop
      = some s.time ∧
    (∀ k : ℕ, k + 1 < (to_episodic_format 100 s).length →
      ((to_episodic_format 100 s).get? k).map Episode.stop
        = ((to_episodic_format 100 s).get? (k + 1)).map Episode.start) ∧
    ((to_episodic_format 100 s).get?
        ((to_episodic_format 100 s).length - 1)).map Episode.status
      = some s.status ∧
    (∀ k : ℕ, k + 1 < (to_episodic_format 100 s).length →
      ((to_episodic_format 100 s).get? k).map Episode.status
        = some 0) := by
  have h100 : (0 : ℚ) < 100 := by norm_num
  have hN : 0 < ⌈s.time / 100⌉ := Int.ceil_pos.mpr (div_pos h h100)
  set n : ℕ := (⌈s.time / 100⌉).toNat with hn
  have hzn : (n : ℤ) = ⌈s.time / 100⌉ := by omega
  have hn1 : 1 ≤ n := by omega
  have hlen : (to_episodic_format 100 s).length = n := to_episodic_length _ _
  have hupper : s.time ≤ (n : ℚ) * 100 := by
    have h1 : s.time ≤ ((⌈s.time / 100⌉ : ℤ) : ℚ) * 100 :=
      (div_le_iff₀ h100).mp (Int.le_ceil _)
    rw [← hzn] at h1
    exact_mod_cast h1
  have hkey : ∀ k : ℕ, k < n → (k : ℚ) * 100 < s.time := by
    intro k hk
    have hk' : (k : ℤ) ≤ ⌈s.time / 100⌉ - 1 := by omega
    have hkq : (k : ℚ) ≤ ((⌈s.time / 100⌉ : ℤ) : ℚ) - 1 := by
      exact_mod_cast hk'
    have hlow : ((⌈s.time / 100⌉ : ℤ) : ℚ) - 1 < s.time / 100 := by
      have := Int.ceil_lt_add_one (s.time / 100)
      linarith
    exact (lt_div_iff₀ h100).mp (lt_of_le_of_lt hkq hlow)
  refine ⟨hlen ▸ hn1, ?_, ?_, ?_, ?_, ?_, ?_⟩
  · intro e he
    obtain ⟨k, hkr, rfl⟩ := List.mem_map.mp he
    have hk : k < n := List.mem_range.mp hkr
    refine ⟨rfl, rfl, ?_, ?_⟩
    · show (k : ℚ) * 100 < min (((k : ℚ) + 1) * 100) s.time
      exact lt_min (by linarith) (hkey k hk)
    · show min (((k : ℚ) + 1) * 100) s.time - (k : ℚ) * 100 ≤ 100
      have hle := min_le_left (((k : ℚ) + 1) * 100) s.time
      linarith
  · rw [to_episodic_get 100 s 0 (by omega)]
    simp [episodeOf]
  · rw [hlen, to_episodic_get 100 s (n - 1) (by omega)]
    have hcast : ((n - 1 : ℕ) : ℚ) + 1 = (n : ℚ) := by
      have : ((n - 1 : ℕ) : ℚ) = (n : ℚ) - 1 := by
        push_cast [Nat.cast_sub hn1]
        ring
      rw [this]; ring
    simp only [episodeOf, Option.map_some']
    rw [hcast, min_eq_right hupper]
  · intro k hk1
    rw [hlen] at hk1
    rw [to_episodic_get 100 s k (by omega),
      to_episodic_get 100 s (k + 1) (by omega)]
    have hstop : (((k : ℚ) + 1) * 100) < s.time := by
      have := hkey (k + 1) (by omega)
      push_cast at this
      linarith
    simp only [episodeOf, Option.map_some']
    rw [min_eq_left (le_of_lt hstop)]
    push_cast
    ring_nf
  · rw [hlen, to_episodic_get 100 s (n - 1) (by omega)]
    simp only [episodeOf, Option.map_some']
    rw [if_pos (by omega : n - 1 + 1 = n)]
  · intro k hk1
    rw [hlen] at hk1
    rw [to_episodic_get 100 s k (by omega)]
    simp only [episodeOf, Option.map_some']
    rw [if_neg (by omega : ¬ k + 1 = n)]

/-- Concrete instantiation: a subject observed for 250 days is expanded
into episodes whose last interval stops exactly at 250. -/
theorem C6_to_episodic_spec_witness :
    (0 : ℚ) < 250 ∧
    1 ≤ (to_episodic_format 100 ⟨7, 250, 1, [1, 0]⟩).length ∧
    ((to_episodic_format 100 ⟨7, 250, 1, [1, 0]⟩).get?
        ((to_episodic_format 100 ⟨7, 250, 1, [1, 0]⟩).length - 1)).map
      Episode.stop = some 250 :=
  ⟨by norm_num,
   (C6_to_episodic_spec ⟨7, 250, 1, [1, 0]⟩ (by norm_num)).1,
   (C6_to_episodic_spec ⟨7, 250, 1, [1, 0]⟩ (by norm_num)).2.2.2.1⟩

/-- One dataframe operation of a notebook, in program order, with its
effect attributes: whether it reads a file, whether it writes a file,
whether it mutates an existing dataframe in place (rather than binding a
new dataframe value), and whether the object it mutates is the very
dataframe returned by `pd.read_csv`. -/
structure DfOp where
  descr : String
  readsFile : Bool
  writesFile : Bool
  inPlace : Bool
  mutatesLoaded : Bool
deriving DecidableEq

/-- The dataframe operations of src/survival.py in program order
(lines 72, 75, 82, 202): the CSV is read once; the column selection
binds a new dataframe; `dropna(inplace=True)` and the `age_category`
column assignment mutate that selected dataframe in place (the object
returned by `read_csv` itself is never mutated, only rebound). -/
def survivalOps : List DfOp :=
  [⟨"colon_df = pd.read_csv(colon.csv)", true, false, false, false⟩,
   ⟨"colon_df = colon_df[[time, status, rx, sex, age, obstruct, adhere, differ]]",
     false, false, false, false⟩,
   ⟨"colon_df.dropna(inplace=True)", false, false, true, false⟩,
   ⟨"colon_df[age_category] = pd.cut(colon_df[age], bins, labels)",
     false, false, true, false⟩]

/-- The dataframe operations of src/notebooks/analiza_calosc.py in
program order (lines 88, 91, 95, 127-130, 186-194, 463, 705-706,
732-733, 738, 742). -/
def caloscOps : List DfOp :=
  [⟨"colon = pd.read_csv(../data/colon.csv)", true, false, false, false⟩,
   ⟨"colon = colon[[time, status, rx, sex, age, obstruct, adhere, differ]]",
     false, false, false, false⟩,
   ⟨"colon = colon[colon[rx] != 2]", false, false, false, false⟩,
   ⟨"correlations_df = pd.DataFrame(colon.corr()[time])",
     false, false, false, false⟩,
   ⟨"correlations_df.drop([status, time], inplace=True)",
     false, false, true, false⟩,
   ⟨"correlations_df.reset_index(inplace=True)", false, false, true, false⟩,
   ⟨"kmf_table = pd.DataFrame(kmf.survival_function_)",
     false, false, false, false⟩,
   ⟨"kmf_table[column] = ... (confidence intervals, cumulative hazard, event table)",
     false, false, true, false⟩,
   ⟨"kmf_table[Skumulowana funkcja hazardu][0] = 0", false, false, true, false⟩,
   ⟨"colon = pd.get_dummies(colon, columns=[differ], drop_first=True)",
     false, false, false, false⟩,
   ⟨"colon_strat = colon.copy()", false, false, false, false⟩,
   ⟨"colon_strat[differ_3] = colon_strat[differ_3].astype(str)",
     false, false, true, false⟩,
   ⟨"colon_tv = colon.copy()", false, false, false, false⟩,
   ⟨"colon_tv[differ_3*time] = colon_tv[differ_3]*colon_tv[time]",
     false, false, true, false⟩,
   ⟨"colon_tv = to_episodic_format(colon[...], time, status, time_gaps=100.)",
     false, false, false, false⟩,
   ⟨"colon_tv[differ_3*time] = colon_tv[differ_3]*colon_tv[stop]",
     false, false, true, false⟩]

/-- The dataframe operations of src/notebooks/analiza_calosc_strat.py in
program order (lines 88, 91, 95, 127-130, 186-194, 440, 574-575,
593-594, 599, 603). -/
def stratOps : List DfOp :=
  [⟨"colon = pd.read_csv(../data/colon.csv)", true, false, false, false⟩,
   ⟨"colon = colon[[time, status, rx, sex, age, obstruct, adhere, differ]]",
     false, false, false, false⟩,
   ⟨"colon = colon[colon[rx] != 2]", false, false, false, false⟩,
   ⟨"correlations_df = pd.DataFrame(colon.corr()[time])",
     false, false, false, false⟩,
   ⟨"correlations_df.drop([status, time], inplace=True)",
     false, false, true, false⟩,
   ⟨"correlations_df.reset_index(inplace=True)", false, false, true, false⟩,
   ⟨"kmf_table = pd.DataFrame(kmf.survival_function_)",
     false, false, false, false⟩,
   ⟨"kmf_table[column] = ... (confidence intervals, cumulative hazard, event table)",
     false, false, true, false⟩,
   ⟨"kmf_table[Skumulowana funkcja hazardu][0] = 0", false, false, true, false⟩,
   ⟨"colon = pd.get_dummies(colon, columns=[differ], drop_first=True)",
     false, false, false, false⟩,
   ⟨"colon_strat = colon.copy()", false, false, false, false⟩,
   ⟨"colon_strat[differ_3] = colon_strat[differ_3].astype(str)",
     false, false, true, false⟩,
   ⟨"colon_tv = colon.copy()", false, false, false, false⟩,
   ⟨"colon_tv[differ_3*time] = colon_tv[differ_3]*colon_tv[time]",
     false, false, true, false⟩,
   ⟨"colon_tv = to_episodic_format(colon[...], time, status, time_gaps=100.)",
     false, false, false, false⟩,
   ⟨"colon_tv[differ_3*time] = colon_tv[differ_3]*colon_tv[stop]",
     false, false, true, false⟩]

/-- The read-only discipline asserted by the claim, as a predicate on an
operation trace: the file is read exactly once, by the first operation,
nothing writes a file, and every transformation binds a new dataframe
value (no in-place mutation). -/
def readOnlyClaim (ops : List DfOp) : Prop :=
  (ops.filter (fun op => op.readsFile)).length = 1 ∧
  (ops.head?).map DfOp.readsFile = some true ∧
  (∀ op ∈ ops, op.writesFile = false) ∧
  (∀ op ∈ ops, op.inPlace = false)

instance (ops : List DfOp) : Decidable (readOnlyClaim ops) := by
  unfold readOnlyClaim
  infer_instance

/-- C7 (counterexample): the trace of survival.py violates the claim:
`colon_df.dropna(inplace=True)` (line 82) is a transformation that
mutates an existing dataframe in place instead of producing a new
dataframe value, so not every operation after loading leaves earlier
values intact. -/
theorem C7_read_only_counterexample :
    ¬ readOnlyClaim survivalOps ∧
    (∃ op ∈ survivalOps, op.inPlace = true ∧
      op.descr = "colon_df.dropna(inplace=True)") := by
  constructor
  · decide
  · decide

/-- C7 (amended): each of the three files reads the CSV exactly once,
as its first dataframe operation; no operation writes a file; and no
operation mutates the object returned by `pd.read_csv` (each file
immediately rebinds its variable to a new column-selected dataframe, and
all in-place mutations target derived dataframes). -/
theorem C7_read_once_no_writes :
    ((survivalOps.filter (fun op => op.readsFile)).length = 1 ∧
      (survivalOps.head?).map DfOp.readsFile = some true ∧
      (∀ op ∈ survivalOps, op.writesFile = false) ∧
      (∀ op ∈ survivalOps, op.mutatesLoaded = false)) ∧
    ((caloscOps.filter (fun op => op.readsFile)).length = 1 ∧
      (caloscOps.head?).map DfOp.readsFile = some true ∧
      (∀ op ∈ caloscOps, op.writesFile = false) ∧
      (∀ op ∈ caloscOps, op.mutatesLoaded = false)) ∧
    ((stratOps.filter (fun op => op.readsFile)).length = 1 ∧
      (stratOps.head?).map DfOp.readsFile = some true ∧
      (∀ op ∈ stratOps, op.writesFile = false) ∧
      (∀ op ∈ stratOps, op.mutatesLoaded = false)) := by
  decide

/-- The data-preparation pipeline of analiza_calosc.py (lines 91, 95,
463): select the eight analysis columns, drop the rows with `rx = 2`,
then dummy-encode `differ`. -/
def calosc_prep (df : List RawRow) : List EncRow :=
  getDummiesDf (filterRx (df.map selectCols))

/-- The data-preparation pipeline of analiza_calosc_strat.py (lines 91,
95, 440): select the eight analysis columns, drop the rows with
`rx = 2`, then dummy-encode `differ`. -/
def strat_prep (df : List RawRow) : List EncRow :=
  getDummiesDf (filterRx (df.map selectCols))

/-- The subgroup masks used by the non-parametric sections of both
notebooks; the defining boolean expressions are textually identical in
the two files (calosc lines 238-239, 287, 332, 375, 421-423; strat
lines 231-232, 276, 319, 359, 401-403). -/
inductive Mask
  | rx1 | rx3 | sexM | sexF | obstructNo | obstructYes
  | adhereNo | adhereYes | d1 | d2 | d3
deriving DecidableEq

/-- Evaluation of a subgroup mask on a row. -/
def Mask.eval : Mask → Row → Bool
  | .rx1, r => r.rx == 1
  | .rx3, r => r.rx == 3
  | .sexM, r => r.sex == 0
  | .sexF, r => !(r.sex == 0)
  | .obstructNo, r => r.obstruct == 0
  | .obstructYes, r => !(r.obstruct == 0)
  | .adhereNo, r => r.adhere == 0
  | .adhereYes, r => !(r.adhere == 0)
  | .d1, r => r.differ == 1
  | .d2, r => r.differ == 2
  | .d3, r => r.differ == 3

/-- The Kaplan-Meier subgroup fits of analiza_calosc.py, in program
order, as (mask, curve label) pairs (lines 243-245, 292-295, 337-340,
380-383, 428-434). -/
def calosc_km_fits : List (Mask × String) :=
  [(.rx1, "Observation"), (.rx3, "Lev(amisole) + 5-FU"),
   (.sexM, "Male"), (.sexF, "Female"),
   (.obstructNo, "No obstruct"), (.obstructYes, "Obstruct"),
   (.adhereNo, "No adhere"), (.adhereYes, "adhere"),
   (.d1, "differ = 1"), (.d2, "differ = 2"), (.d3, "differ = 3")]

/-- The Kaplan-Meier subgroup fits of analiza_calosc_strat.py, in
program order (lines 236-238, 281-284, 324-327, 364-367, 408-414). -/
def strat_km_fits : List (Mask × String) :=
  [(.rx1, "Observation"), (.rx3, "Lev(amisole) + 5-FU"),
   (.sexM, "Male"), (.sexF, "Female"),
   (.obstructNo, "Obstruct"), (.obstructYes, "No obstruct"),
   (.adhereNo, "Adhere"), (.adhereYes, "No adhere"),
   (.d1, "differ = 1"), (.d2, "differ = 2"), (.d3, "differ = 3")]

/-- The Nelson-Aalen subgroup fits of analiza_calosc.py, in program
order (lines 257-261, 306-309, 351-354, 394-397). -/
def calosc_na_fits : List (Mask × String) :=
  [(.rx1, "Observation"), (.rx3, "Lev(amisole) + 5-FU"),
   (.sexM, "Male"), (.sexF, "Female"),
   (.obstructNo, "No obstruct"), (.obstructYes, "Obstruct"),
   (.adhereNo, "No adhere"), (.adhereYes, "Adheree")]

/-- The Nelson-Aalen subgroup fits of analiza_calosc_strat.py, in
program order (lines 250-254, 295-298, 338-341, 378-381). -/
def strat_na_fits : List (Mask × String) :=
  [(.rx1, "Observation"), (.rx3, "Lev(amisole) + 5-FU"),
   (.sexM, "Male"), (.sexF, "Female"),
   (.obstructNo, "Obstruct"), (.obstructYes, "No obstruct"),
   (.adhereNo, "Obstruct"), (.adhereYes, "No obstruct")]

/-- C10 (counterexample): the mask `obstruct == 0` does not receive the
same label in the two notebooks: analiza_calosc.py labels it
`No obstruct` while analiza_calosc_strat.py labels it `Obstruct`, so
the group-to-label assignments of the two notebooks differ. -/
theorem C10_label_counterexample :
    calosc_km_fits.lookup Mask.obstructNo = some "No obstruct" ∧
    strat_km_fits.lookup Mask.obstructNo = some "Obstruct" ∧
    calosc_km_fits.lookup Mask.obstructNo
      ≠ strat_km_fits.lookup Mask.obstructNo := by
  decide

/-- C10 (amended): the data-preparation pipelines of the two notebooks
coincide on every input dataframe, and the non-parametric subgroup
steps fit Kaplan-Meier and Nelson-Aalen estimators on the same masks in
the same order, with identical labels for the rx, sex and differ
sections; but for the obstruct and adhere sections
analiza_calosc_strat.py attaches the two labels to the opposite masks
(and labels its adhere Nelson-Aalen curves `Obstruct`/`No obstruct`). -/
theorem C10_notebooks_equiv_amended :
    (∀ df : List RawRow, calosc_prep df = strat_prep df) ∧
    calosc_km_fits.map Prod.fst = strat_km_fits.map Prod.fst ∧
    calosc_na_fits.map Prod.fst = strat_na_fits.map Prod.fst ∧
    calosc_km_fits.lookup Mask.rx1 = strat_km_fits.lookup Mask.rx1 ∧
    calosc_km_fits.lookup Mask.rx3 = strat_km_fits.lookup Mask.rx3 ∧
    calosc_km_fits.lookup Mask.sexM = strat_km_fits.lookup Mask.sexM ∧
    calosc_km_fits.lookup Mask.sexF = strat_km_fits.lookup Mask.sexF ∧
    calosc_km_fits.lookup Mask.d1 = strat_km_fits.lookup Mask.d1 ∧
    calosc_km_fits.lookup Mask.d2 = strat_km_fits.lookup Mask.d2 ∧
    calosc_km_fits.lookup Mask.d3 = strat_km_fits.lookup Mask.d3 ∧
    calosc_km_fits.lookup Mask.obstructNo
      = strat_km_fits.lookup Mask.obstructYes ∧
    calosc_km_fits.lookup Mask.obstructYes
      = strat_km_fits.lookup Mask.obstructNo ∧
    strat_na_fits.lookup Mask.adhereNo = some "Obstruct" ∧
    strat_na_fits.lookup Mask.adhereYes = some "No obstruct" :=
  ⟨fun _ => rfl, by decide⟩

end ColonSurvival
